import Mathlib

/-
  Shallow embedding of the IIID Sports Auction 2026 allocation engine
  (src/app.py): team-ledger computation (`calculate_team_stats`),
  the fair-play quota check (`check_fair_play`), the bid-commit path of the
  auction console (the SOLD-button handler in `render_auction_console`),
  the revert/correction path and the captain-assignment path of
  `render_settings`, and the activity log (`log_activity`).

  Players are rows of the pandas table with columns
  ID, Name, Team, Price, Cricket, Badminton, TT, CaptainFor; grades are the
  normalized strings A, B, C or "0".  Machine integers are modelled as `Int`
  (Python ints are unbounded, so no wrap-around modelling is needed).
-/

set_option maxHeartbeats 1000000

/-- The three sports of the auction (the dataframe columns Cricket, Badminton, TT). -/
inductive Sport where
  | Cricket
  | Badminton
  | TT
deriving DecidableEq, Repr

/-- Normalized per-sport grade: A, B, C, or `O` standing for the string "0"
(player does not participate in that sport).  `load_data` coerces every sport
column to exactly one of these four values. -/
inductive Grade where
  | A
  | B
  | C
  | O
deriving DecidableEq, Repr

/-- One row of the players table: columns ID, Name, Team, Price,
Cricket, Badminton, TT, CaptainFor.  `team = none` is the pandas null (Unsold). -/
structure Player where
  id : Nat
  name : String
  team : Option String
  price : Int
  cricket : Grade
  badminton : Grade
  tt : Grade
  captainFor : Option Sport
deriving DecidableEq, Repr

/-- The tournament configuration (`st.session_state.config`). -/
structure Config where
  purse_limit : Int
  max_squad_size : Int
  base_price : Int
  category_limits : Sport → Grade → Int

/-- The six fixed team names (`TEAM_NAMES` in app.py). -/
def TEAM_NAMES : List String :=
  ["Aditya Avengers", "Alfen Royals", "Lantern Legends",
   "Primark Superkings", "Sai Kripa Soldiers", "Taluka Fighters"]

/-- `DEFAULT_CONFIG` in app.py: purse 2500, squad 35, base price 10,
category limits 4/4/4 for Cricket and 2/2/2 for Badminton and TT. -/
def DEFAULT_CONFIG : Config where
  purse_limit := 2500
  max_squad_size := 35
  base_price := 10
  category_limits := fun sp _ =>
    match sp with
    | Sport.Cricket => 4
    | Sport.Badminton => 2
    | Sport.TT => 2

/-- One row of the dataframe produced by `calculate_team_stats`: the derived
team ledger (columns Name, Count, Spent, Available, Disposable, the per-sport
participation totals and the per-sport per-grade counts Cric_A .. TT_C). -/
structure TeamStats where
  name : String
  count : Nat
  spent : Int
  available : Int
  disposable : Int
  cricket : Nat
  badminton : Nat
  tt : Nat
  cric_a : Nat
  cric_b : Nat
  cric_c : Nat
  bad_a : Nat
  bad_b : Nat
  bad_c : Nat
  tt_a : Nat
  tt_b : Nat
  tt_c : Nat
deriving DecidableEq, Repr

/-- `players_df[players_df['Team'] == team_name]`: the Sold players of a team
(a null Team never equals a team name in pandas, matching `Option.some`). -/
def team_players (ps : List Player) (t : String) : List Player :=
  ps.filter (fun p => p.team = some t)

/-- The body of the loop of `calculate_team_stats` for one team name:
count, spent, available = purse − spent, reserve = max(0, squad − count) × base,
disposable = available − reserve, and the category-count columns. -/
def mk_team_row (ps : List Player) (cfg : Config) (t : String) : TeamStats :=
  let tp := team_players ps t
  let cric := tp.filter (fun p => p.cricket ≠ Grade.O)
  let bad := tp.filter (fun p => p.badminton ≠ Grade.O)
  let ttp := tp.filter (fun p => p.tt ≠ Grade.O)
  let count := tp.length
  let spent := (tp.map Player.price).sum
  let available := cfg.purse_limit - spent
  let empty_slots := max 0 (cfg.max_squad_size - (count : Int))
  let reserve := empty_slots * cfg.base_price
  { name := t
    count := count
    spent := spent
    available := available
    disposable := available - reserve
    cricket := cric.length
    badminton := bad.length
    tt := ttp.length
    cric_a := (cric.filter (fun p => p.cricket = Grade.A)).length
    cric_b := (cric.filter (fun p => p.cricket = Grade.B)).length
    cric_c := (cric.filter (fun p => p.cricket = Grade.C)).length
    bad_a := (bad.filter (fun p => p.badminton = Grade.A)).length
    bad_b := (bad.filter (fun p => p.badminton = Grade.B)).length
    bad_c := (bad.filter (fun p => p.badminton = Grade.C)).length
    tt_a := (ttp.filter (fun p => p.tt = Grade.A)).length
    tt_b := (ttp.filter (fun p => p.tt = Grade.B)).length
    tt_c := (ttp.filter (fun p => p.tt = Grade.C)).length }

/-- `calculate_team_stats(players_df, config)`: one ledger row per fixed team. -/
def calculate_team_stats (ps : List Player) (cfg : Config) : List TeamStats :=
  TEAM_NAMES.map (mk_team_row ps cfg)

/-- The column lookup of `check_fair_play`: maps (sport, grade) to the
dataframe column Cric_A .. TT_C of a ledger row (`col_name` in the source).
Grade "0" is never looked up by the source (it is guarded away). -/
def col_count (row : TeamStats) (sp : Sport) (g : Grade) : Nat :=
  match sp, g with
  | Sport.Cricket, Grade.A => row.cric_a
  | Sport.Cricket, Grade.B => row.cric_b
  | Sport.Cricket, Grade.C => row.cric_c
  | Sport.Badminton, Grade.A => row.bad_a
  | Sport.Badminton, Grade.B => row.bad_b
  | Sport.Badminton, Grade.C => row.bad_c
  | Sport.TT, Grade.A => row.tt_a
  | Sport.TT, Grade.B => row.tt_b
  | Sport.TT, Grade.C => row.tt_c
  | _, Grade.O => 0

/-- Display name of a sport, as used in the quota message. -/
def sport_str : Sport → String
  | Sport.Cricket => "Cricket"
  | Sport.Badminton => "Badminton"
  | Sport.TT => "TT"

/-- Display name of a grade, as used in the quota message. -/
def grade_str : Grade → String
  | Grade.A => "A"
  | Grade.B => "B"
  | Grade.C => "C"
  | Grade.O => "0"

/-- The rejection message of `check_fair_play`, naming the sport, the limit and
the grade. -/
def quota_message (sp : Sport) (g : Grade) (limit : Int) : String :=
  sport_str sp ++ " QUOTA: All teams must have " ++ toString limit ++
    " Grade " ++ grade_str g ++ " players in " ++ sport_str sp ++
    " before you can buy more."

/-- One iteration of the sport loop of `check_fair_play`: `none` means the
sport raises no objection, `some msg` is the quota rejection.  Grades outside
A, B, C (that is, "0") are skipped; when the team has already reached the
limit, the sale is blocked exactly when some *other* team is still below it. -/
def fair_play_violation (row : TeamStats) (others : List TeamStats) (cfg : Config)
    (pg : Sport → Grade) (sp : Sport) : Option String :=
  if pg sp = Grade.A ∨ pg sp = Grade.B ∨ pg sp = Grade.C then
    if cfg.category_limits sp (pg sp) ≤ (col_count row sp (pg sp) : Int) then
      if others.any (fun o =>
          (col_count o sp (pg sp) : Int) < cfg.category_limits sp (pg sp)) then
        some (quota_message sp (pg sp) (cfg.category_limits sp (pg sp)))
      else
        none
    else
      none
  else
    none

/-- The sport list iterated by `check_fair_play`, in source order. -/
def all_sports : List Sport := [Sport.Cricket, Sport.Badminton, Sport.TT]

/-- The `for sport in sports` loop of `check_fair_play`: returns the first
violation (short-circuiting, as the source returns from inside the loop). -/
def check_sports (row : TeamStats) (others : List TeamStats) (cfg : Config)
    (pg : Sport → Grade) : List Sport → Bool × String
  | [] => (true, "")
  | sp :: rest =>
    match fair_play_violation row others cfg pg sp with
    | some m => (false, m)
    | none => check_sports row others cfg pg rest

/-- `check_fair_play(team_name, player_sport_grades, team_stats_df, config)`.
The `none` branch of the row lookup is unreachable at every call site (the
team name is always the Name of a row of the stats dataframe; `.iloc[0]`
would raise otherwise) and is given the vacuous pass value. -/
def check_fair_play (team_name : String) (pg : Sport → Grade)
    (stats : List TeamStats) (cfg : Config) : Bool × String :=
  match stats.find? (fun r => r.name = team_name) with
  | none => (true, "")
  | some row =>
    check_sports row (stats.filter (fun r => r.name ≠ team_name)) cfg pg all_sports

/-- One entry of `st.session_state.activity_log` (the id and wall-clock time
fields are I/O noise and not modelled). -/
structure LogEntry where
  kind : String
  message : String
deriving DecidableEq, Repr

/-- `log_activity(type, message)`: insert at the front, keep at most 50. -/
def log_activity (log : List LogEntry) (kind message : String) : List LogEntry :=
  ({ kind := kind, message := message } :: log).take 50

/-- The mutable session state touched by the engine: the players table, the
config, the activity log, and the on-block pointer `current_player_id`. -/
structure AppState where
  players : List Player
  config : Config
  activity_log : List LogEntry
  current_player_id : Option Nat

/-- `st.session_state.players.at[idx, ...] = ...` where
`idx = players.index[pred].tolist()[0]`: update the first row satisfying the
predicate, leave everything else in place. -/
def update_first (test : Player → Bool) (upd : Player → Player) :
    List Player → List Player
  | [] => []
  | q :: qs => if test q then upd q :: qs else q :: update_first test upd qs

/-- The sale mutation of the SOLD handler: set Team and Price of the first
row whose ID matches. -/
def set_sold (ps : List Player) (p_id : Nat) (t : String) (bid : Int) : List Player :=
  update_first (fun q => q.id = p_id)
    (fun q => { q with team := some t, price := bid }) ps

/-- The `player_sports` dict built by the SOLD handler from the current row. -/
def player_sport_grades (p : Player) : Sport → Grade
  | Sport.Cricket => p.cricket
  | Sport.Badminton => p.badminton
  | Sport.TT => p.tt

/-- The distinct rejections of the bid-commit path.  `playerNotFound` and
`teamNotFound` model the `.iloc[0]` / `.tolist()[0]` lookup raising before
any mutation; both are unreachable through the UI. -/
inductive Rejection where
  | playerNotFound
  | teamNotFound
  | squadFull
  | insufficientFunds (max_bid : Int)
  | quotaViolation (msg : String)
deriving DecidableEq, Repr

/-- The sale log message (decorative markup and currency glyphs dropped). -/
def sale_message (name t : String) (bid : Int) : String :=
  "SOLD: " ++ name ++ " to " ++ t ++ " for " ++ toString bid ++ "L"

/-- The SOLD-button handler of `render_auction_console` (the bid-commit
operation): squad-capacity check, max-bid funds check
(`max_bid = Disposable + base_price`, reject when `bid_amount > max_bid`),
fair-play quota check, then the single mutating step (set Team and Price,
append one sale log entry, clear the on-block pointer).  Every rejection
returns the state unchanged. -/
def commit_sale (s : AppState) (p_id : Nat) (selected_team_name : String)
    (bid_amount : Int) : Option Rejection × AppState :=
  match s.players.find? (fun p => p.id = p_id) with
  | none => (some Rejection.playerNotFound, s)
  | some current_p =>
    match (calculate_team_stats s.players s.config).find?
        (fun r => r.name = selected_team_name) with
    | none => (some Rejection.teamNotFound, s)
    | some team_stats =>
      if s.config.max_squad_size ≤ (team_stats.count : Int) then
        (some Rejection.squadFull, s)
      else if team_stats.disposable + s.config.base_price < bid_amount then
        (some (Rejection.insufficientFunds
          (team_stats.disposable + s.config.base_price)), s)
      else
        match check_fair_play selected_team_name (player_sport_grades current_p)
            (calculate_team_stats s.players s.config) s.config with
        | (false, fp_msg) => (some (Rejection.quotaViolation fp_msg), s)
        | (true, _) =>
          (none,
           { players := set_sold s.players p_id selected_team_name bid_amount
             config := s.config
             activity_log := log_activity s.activity_log "sale"
               (sale_message current_p.name selected_team_name bid_amount)
             current_player_id := none })

/-- The field updates of the Unsell / Revert button: Team → null, Price → 0,
CaptainFor → null. -/
def revert_fields (p : Player) : Player :=
  { p with team := none, price := 0, captainFor := none }

/-- The revert log message (emoji dropped). -/
def revert_message (name : String) : String :=
  "Reverted: " ++ name ++ " moved to unsold."

/-- The Unsell / Revert button of the Correction tab of `render_settings`:
clears the first row with the given Name and logs a revert entry.  No funds
or quota re-validation, and the on-block pointer is not touched. -/
def unsell_revert (s : AppState) (edit_player_name : String) : AppState :=
  { s with
    players := update_first (fun q => q.name = edit_player_name)
      revert_fields s.players
    activity_log := log_activity s.activity_log "revert"
      (revert_message edit_player_name) }

/-- The captain log message (emoji dropped). -/
def captain_message (name t : String) (sp : Sport) : String :=
  "CAPTAIN: " ++ name ++ " assigned to " ++ t ++ " (" ++ sport_str sp ++ ")"

/-- The Assign Captain button of `render_settings`: sets Team, Price and
CaptainFor of the first row with the given Name and logs a captain entry.
There is no funds, capacity or quota check on this path. -/
def assign_captain (s : AppState) (cap_player_name cap_team : String)
    (cap_sport : Sport) (cap_price : Int) : AppState :=
  { s with
    players := update_first (fun q => q.name = cap_player_name)
      (fun q => { q with team := some cap_team, price := cap_price,
                         captainFor := some cap_sport }) s.players
    activity_log := log_activity s.activity_log "captain"
      (captain_message cap_player_name cap_team cap_sport) }

/-- The team selector of the bidding controls: the Winning Team selectbox is
populated only from `valid_teams = stats_df[stats_df['Disposable'] >= base_price]`. -/
def valid_team_options (ps : List Player) (cfg : Config) : List String :=
  ((calculate_team_stats ps cfg).filter
    (fun r => cfg.base_price ≤ r.disposable)).map TeamStats.name

/-- The per-sport admissibility predicate in the words of the spec: a sport
raises no objection when the player does not play it, or the team is still
below the limit, or every other team has already reached the limit. -/
def sport_allowed_spec (row : TeamStats) (others : List TeamStats) (cfg : Config)
    (pg : Sport → Grade) (sp : Sport) : Prop :=
  pg sp = Grade.O ∨
    (col_count row sp (pg sp) : Int) < cfg.category_limits sp (pg sp) ∨
    ∀ o ∈ others, cfg.category_limits sp (pg sp) ≤ (col_count o sp (pg sp) : Int)

/- ===================== helper lemmas ===================== -/

theorem find?_of_decomp {α : Type} (f : α → Bool) (l1 l2 : List α) (p : α)
    (h1 : ∀ q ∈ l1, f q = false) (hp : f p = true) :
    (l1 ++ p :: l2).find? f = some p := by
  induction l1 with
  | nil => simp [List.find?_cons_of_pos _ hp]
  | cons a l ih =>
    have ha : f a = false := h1 a (by simp)
    rw [List.cons_append, List.find?_cons_of_neg _ (by simp [ha])]
    exact ih (fun q hq => h1 q (by simp [hq]))

theorem find?_eq_some_decomp {α : Type} (f : α → Bool) (l : List α) (p : α)
    (h : l.find? f = some p) :
    ∃ l1 l2, l = l1 ++ p :: l2 ∧ (∀ q ∈ l1, f q = false) ∧ f p = true := by
  induction l with
  | nil => simp [List.find?] at h
  | cons a l ih =>
    by_cases ha : f a = true
    · rw [List.find?_cons_of_pos _ ha] at h
      obtain rfl : a = p := by injection h
      exact ⟨[], l, by simp, by simp, ha⟩
    · rw [List.find?_cons_of_neg _ ha] at h
      obtain ⟨l1, l2, rfl, h1, hp⟩ := ih h
      exact ⟨a :: l1, l2, by simp, by
        intro q hq
        rcases List.mem_cons.mp hq with rfl | hq
        · exact Bool.eq_false_iff.mpr ha
        · exact h1 q hq, hp⟩

theorem update_first_decomp (test : Player → Bool) (upd : Player → Player)
    (l1 l2 : List Player) (p : Player)
    (h1 : ∀ q ∈ l1, test q = false) (hp : test p = true) :
    update_first test upd (l1 ++ p :: l2) = l1 ++ upd p :: l2 := by
  induction l1 with
  | nil => simp [update_first, hp]
  | cons a l ih =>
    have ha : test a = false := h1 a (by simp)
    simp only [List.cons_append, update_first, ha, Bool.false_eq_true, if_false,
      List.cons.injEq, true_and]
    exact ih (fun q hq => h1 q (by simp [hq]))

theorem mk_team_row_name (ps : List Player) (cfg : Config) (t : String) :
    (mk_team_row ps cfg t).name = t := rfl

theorem mk_team_row_count (ps : List Player) (cfg : Config) (t : String) :
    (mk_team_row ps cfg t).count = (team_players ps t).length := rfl

theorem mk_team_row_spent (ps : List Player) (cfg : Config) (t : String) :
    (mk_team_row ps cfg t).spent = ((team_players ps t).map Player.price).sum := rfl

theorem mk_team_row_available (ps : List Player) (cfg : Config) (t : String) :
    (mk_team_row ps cfg t).available
      = cfg.purse_limit - (mk_team_row ps cfg t).spent := rfl

theorem mk_team_row_disposable (ps : List Player) (cfg : Config) (t : String) :
    (mk_team_row ps cfg t).disposable
      = cfg.purse_limit - (mk_team_row ps cfg t).spent
        - max 0 (cfg.max_squad_size - ((mk_team_row ps cfg t).count : Int))
            * cfg.base_price := rfl

theorem calculate_team_stats_find? (ps : List Player) (cfg : Config) (t : String)
    (ht : t ∈ TEAM_NAMES) :
    (calculate_team_stats ps cfg).find? (fun r => r.name = t)
      = some (mk_team_row ps cfg t) := by
  unfold calculate_team_stats
  generalize TEAM_NAMES = names at ht
  induction names with
  | nil => cases ht
  | cons a l ih =>
    by_cases ha : a = t
    · subst ha
      exact List.find?_cons_of_pos _ (by simp [mk_team_row_name])
    · rcases List.mem_cons.mp ht with rfl | hmem
      · exact absurd rfl ha
      · rw [List.map_cons, List.find?_cons_of_neg _ (by simp [mk_team_row_name, ha])]
        exact ih hmem

theorem team_players_append (l1 l2 : List Player) (t : String) :
    team_players (l1 ++ l2) t = team_players l1 t ++ team_players l2 t := by
  simp [team_players, List.filter_append]

theorem team_players_cons_of_mem (p : Player) (l : List Player) (t : String)
    (h : p.team = some t) :
    team_players (p :: l) t = p :: team_players l t := by
  simp [team_players, h]

theorem team_players_cons_of_not_mem (p : Player) (l : List Player) (t : String)
    (h : p.team ≠ some t) :
    team_players (p :: l) t = team_players l t := by
  simp [team_players, h]

theorem sold_count_spent (l1 l2 : List Player) (p p' : Player) (t : String)
    (hp : p.team ≠ some t) (hp' : p'.team = some t) :
    (team_players (l1 ++ p' :: l2) t).length
        = (team_players (l1 ++ p :: l2) t).length + 1 ∧
      ((team_players (l1 ++ p' :: l2) t).map Player.price).sum
        = ((team_players (l1 ++ p :: l2) t).map Player.price).sum + p'.price := by
  rw [team_players_append, team_players_append,
    team_players_cons_of_mem _ _ _ hp', team_players_cons_of_not_mem _ _ _ hp]
  constructor
  · simp [List.length_append]
    omega
  · simp [List.map_append]
    ring

theorem commit_sale_cases (s : AppState) (p_id : Nat) (t : String) (bid : Int) :
    (∃ r, commit_sale s p_id t bid = (some r, s)) ∨
    (∃ p, s.players.find? (fun q => q.id = p_id) = some p ∧
      commit_sale s p_id t bid
        = (none,
           { players := set_sold s.players p_id t bid
             config := s.config
             activity_log := log_activity s.activity_log "sale"
               (sale_message p.name t bid)
             current_player_id := none })) := by
  unfold commit_sale
  split
  · exact Or.inl ⟨_, rfl⟩
  next current_p hfind =>
    split
    · exact Or.inl ⟨_, rfl⟩
    next row hrow =>
      split
      · exact Or.inl ⟨_, rfl⟩
      next h1 =>
        split
        · exact Or.inl ⟨_, rfl⟩
        next h2 =>
          split
          next fp_msg hcf => exact Or.inl ⟨_, rfl⟩
          next m hcf => exact Or.inr ⟨current_p, hfind, rfl⟩

theorem commit_sale_accepts (s : AppState) (p_id : Nat) (t : String) (bid : Int)
    (p : Player)
    (hp : s.players.find? (fun q => q.id = p_id) = some p)
    (ht : t ∈ TEAM_NAMES)
    (hcap : ((mk_team_row s.players s.config t).count : Int)
      < s.config.max_squad_size)
    (hbid : bid ≤ (mk_team_row s.players s.config t).disposable
      + s.config.base_price)
    (hfair : (check_fair_play t (player_sport_grades p)
        (calculate_team_stats s.players s.config) s.config).fst = true) :
    commit_sale s p_id t bid
      = (none,
         { players := set_sold s.players p_id t bid
           config := s.config
           activity_log := log_activity s.activity_log "sale"
             (sale_message p.name t bid)
           current_player_id := none }) := by
  unfold commit_sale
  split
  next hfind => rw [hp] at hfind; cases hfind
  next current_p hfind =>
    rw [hp] at hfind
    obtain rfl : current_p = p := by injection hfind with h; exact h.symm
    split
    next hrow => rw [calculate_team_stats_find? _ _ _ ht] at hrow; cases hrow
    next row hrow =>
      rw [calculate_team_stats_find? _ _ _ ht] at hrow
      obtain rfl : row = mk_team_row s.players s.config t := by
        injection hrow with h; exact h.symm
      rw [if_neg (by omega), if_neg (by omega)]
      split
      next fp_msg hcf => rw [hcf] at hfair; cases hfair
      next m hcf => rfl

theorem commit_sale_insufficient (s : AppState) (p_id : Nat) (t : String) (bid : Int)
    (p : Player)
    (hp : s.players.find? (fun q => q.id = p_id) = some p)
    (ht : t ∈ TEAM_NAMES)
    (hcap : ((mk_team_row s.players s.config t).count : Int)
      < s.config.max_squad_size)
    (hbid : (mk_team_row s.players s.config t).disposable
      + s.config.base_price < bid) :
    commit_sale s p_id t bid
      = (some (Rejection.insufficientFunds
          ((mk_team_row s.players s.config t).disposable + s.config.base_price)), s) := by
  unfold commit_sale
  split
  next hfind => rw [hp] at hfind; cases hfind
  next current_p hfind =>
    split
    next hrow => rw [calculate_team_stats_find? _ _ _ ht] at hrow; cases hrow
    next row hrow =>
      rw [calculate_team_stats_find? _ _ _ ht] at hrow
      obtain rfl : row = mk_team_row s.players s.config t := by
        injection hrow with h; exact h.symm
      rw [if_neg (by omega), if_pos hbid]

/- ===================== Claim C2 helpers ===================== -/

/-- A one-row players table: player 1 unsold, not participating in any sport. -/
def c2p : Player :=
  { id := 1, name := "P1", team := none, price := 0,
    cricket := Grade.O, badminton := Grade.O, tt := Grade.O, captainFor := none }

/-- A session state holding only the unsold player `c2p`, default config. -/
def c2state : AppState :=
  { players := [c2p], config := DEFAULT_CONFIG, activity_log := [],
    current_player_id := some 1 }

/- ===================== Claim C1 ===================== -/

/-- Claim C1: for every team, the TeamLedger row computed by
`calculate_team_stats` from the player set and config satisfies:
count = number of Sold players whose Team equals that team, spent = sum of
their Price values, available = purse_limit − spent, and
disposable = available − max(0, max_squad_size − count) × base_price. -/
theorem C1_team_ledger (ps : List Player) (cfg : Config) (t : String)
    (ht : t ∈ TEAM_NAMES) :
    (calculate_team_stats ps cfg).find? (fun r => r.name = t)
        = some (mk_team_row ps cfg t) ∧
      (mk_team_row ps cfg t).count
        = (ps.filter (fun p => p.team ≠ none ∧ p.team = some t)).length ∧
      (mk_team_row ps cfg t).spent
        = ((ps.filter (fun p => p.team ≠ none ∧ p.team = some t)).map
            Player.price).sum ∧
      (mk_team_row ps cfg t).available
        = cfg.purse_limit - (mk_team_row ps cfg t).spent ∧
      (mk_team_row ps cfg t).disposable
        = (mk_team_row ps cfg t).available
          - max 0 (cfg.max_squad_size - ((mk_team_row ps cfg t).count : Int))
              * cfg.base_price := by
  have hfilter : ps.filter (fun p => p.team ≠ none ∧ p.team = some t)
      = team_players ps t := by
    unfold team_players
    apply List.filter_congr
    intro p _
    by_cases h : p.team = some t
    · simp [h]
    · simp [h]
  refine ⟨calculate_team_stats_find? ps cfg t ht, ?_, ?_, rfl, rfl⟩
  · rw [hfilter]; rfl
  · rw [hfilter]; rfl

/-- A one-player table: player 1 sold to Aditya Avengers for 100. -/
def c1ps : List Player :=
  [{ id := 1, name := "P1", team := some "Aditya Avengers", price := 100,
     cricket := Grade.A, badminton := Grade.O, tt := Grade.O, captainFor := none }]

/-- Witness for C1: the theorem applied at a concrete one-player table. -/
theorem C1_team_ledger_witness :
    "Aditya Avengers" ∈ TEAM_NAMES ∧
    ((calculate_team_stats c1ps DEFAULT_CONFIG).find?
          (fun r => r.name = "Aditya Avengers")
        = some (mk_team_row c1ps DEFAULT_CONFIG "Aditya Avengers") ∧
      (mk_team_row c1ps DEFAULT_CONFIG "Aditya Avengers").count
        = (c1ps.filter
            (fun p => p.team ≠ none ∧ p.team = some "Aditya Avengers")).length ∧
      (mk_team_row c1ps DEFAULT_CONFIG "Aditya Avengers").spent
        = ((c1ps.filter
            (fun p => p.team ≠ none ∧ p.team = some "Aditya Avengers")).map
              Player.price).sum ∧
      (mk_team_row c1ps DEFAULT_CONFIG "Aditya Avengers").available
        = DEFAULT_CONFIG.purse_limit
          - (mk_team_row c1ps DEFAULT_CONFIG "Aditya Avengers").spent ∧
      (mk_team_row c1ps DEFAULT_CONFIG "Aditya Avengers").disposable
        = (mk_team_row c1ps DEFAULT_CONFIG "Aditya Avengers").available
          - max 0 (DEFAULT_CONFIG.max_squad_size
              - ((mk_team_row c1ps DEFAULT_CONFIG "Aditya Avengers").count : Int))
              * DEFAULT_CONFIG.base_price) :=
  ⟨by decide, C1_team_ledger c1ps DEFAULT_CONFIG "Aditya Avengers" (by decide)⟩

/- ===================== Claim C2 ===================== -/

/-- Claim C2: for a bid-commit attempt where the squad-capacity and quota
checks pass, the commit is rejected with InsufficientFunds — the rejection
carrying the maximum allowed bid — if and only if the price exceeds the
winning team's disposable + base_price; a bid exactly equal to
disposable + base_price is accepted, and a bid one unit higher is rejected. -/
theorem C2_max_bid (s : AppState) (p_id : Nat) (t : String) (bid : Int) (p : Player)
    (hp : s.players.find? (fun q => q.id = p_id) = some p)
    (ht : t ∈ TEAM_NAMES)
    (hcap : ((mk_team_row s.players s.config t).count : Int)
      < s.config.max_squad_size)
    (hfair : (check_fair_play t (player_sport_grades p)
        (calculate_team_stats s.players s.config) s.config).fst = true) :
    ((commit_sale s p_id t bid).fst
        = some (Rejection.insufficientFunds
            ((mk_team_row s.players s.config t).disposable + s.config.base_price))
      ↔ (mk_team_row s.players s.config t).disposable + s.config.base_price
          < bid) ∧
    (commit_sale s p_id t
        ((mk_team_row s.players s.config t).disposable
          + s.config.base_price)).fst = none ∧
    (commit_sale s p_id t
        ((mk_team_row s.players s.config t).disposable
          + s.config.base_price + 1)).fst
      = some (Rejection.insufficientFunds
          ((mk_team_row s.players s.config t).disposable
            + s.config.base_price)) := by
  refine ⟨⟨?_, ?_⟩, ?_, ?_⟩
  · intro h
    by_contra hle
    push_neg at hle
    rw [commit_sale_accepts s p_id t bid p hp ht hcap hle hfair] at h
    simp at h
  · intro h
    rw [commit_sale_insufficient s p_id t bid p hp ht hcap h]
  · rw [commit_sale_accepts s p_id t _ p hp ht hcap (le_refl _) hfair]
  · rw [commit_sale_insufficient s p_id t _ p hp ht hcap (by omega)]

/-- Witness for C2: the theorem applied at the concrete state `c2state`,
player 1, team Alfen Royals, a bid of 100. -/
theorem C2_max_bid_witness :
    (c2state.players.find? (fun q => q.id = 1) = some c2p ∧
     "Alfen Royals" ∈ TEAM_NAMES ∧
     ((mk_team_row c2state.players c2state.config "Alfen Royals").count : Int)
       < c2state.config.max_squad_size ∧
     (check_fair_play "Alfen Royals" (player_sport_grades c2p)
        (calculate_team_stats c2state.players c2state.config)
        c2state.config).fst = true) ∧
    (((commit_sale c2state 1 "Alfen Royals" 100).fst
        = some (Rejection.insufficientFunds
            ((mk_team_row c2state.players c2state.config "Alfen Royals").disposable
              + c2state.config.base_price))
      ↔ (mk_team_row c2state.players c2state.config "Alfen Royals").disposable
          + c2state.config.base_price < 100) ∧
    (commit_sale c2state 1 "Alfen Royals"
        ((mk_team_row c2state.players c2state.config "Alfen Royals").disposable
          + c2state.config.base_price)).fst = none ∧
    (commit_sale c2state 1 "Alfen Royals"
        ((mk_team_row c2state.players c2state.config "Alfen Royals").disposable
          + c2state.config.base_price + 1)).fst
      = some (Rejection.insufficientFunds
          ((mk_team_row c2state.players c2state.config "Alfen Royals").disposable
            + c2state.config.base_price))) :=
  ⟨⟨by decide, by decide, by decide, by decide⟩,
   C2_max_bid c2state 1 "Alfen Royals" 100 c2p
     (by decide) (by decide) (by decide) (by decide)⟩

/- ===================== Claim C3 helpers ===================== -/

theorem fair_play_violation_spec (row : TeamStats) (others : List TeamStats)
    (cfg : Config) (pg : Sport → Grade) (sp : Sport) :
    (fair_play_violation row others cfg pg sp = none
        ↔ sport_allowed_spec row others cfg pg sp) ∧
    (¬ sport_allowed_spec row others cfg pg sp →
      fair_play_violation row others cfg pg sp
        = some (quota_message sp (pg sp) (cfg.category_limits sp (pg sp)))) := by
  unfold fair_play_violation sport_allowed_spec
  by_cases hg : pg sp = Grade.A ∨ pg sp = Grade.B ∨ pg sp = Grade.C
  · rw [if_pos hg]
    have hgo : ¬ (pg sp = Grade.O) := by
      rcases hg with h | h | h <;> simp [h]
    by_cases h1 : cfg.category_limits sp (pg sp) ≤ (col_count row sp (pg sp) : Int)
    · rw [if_pos h1]
      by_cases h2 : others.any (fun o =>
          (col_count o sp (pg sp) : Int) < cfg.category_limits sp (pg sp)) = true
      · rw [if_pos h2]
        have hspec : ¬ (pg sp = Grade.O ∨
            (col_count row sp (pg sp) : Int) < cfg.category_limits sp (pg sp) ∨
            ∀ o ∈ others,
              cfg.category_limits sp (pg sp) ≤ (col_count o sp (pg sp) : Int)) := by
          rintro (h | h | h)
          · exact hgo h
          · omega
          · rw [List.any_eq_true] at h2
            obtain ⟨o, ho, hlt⟩ := h2
            have hle := h o ho
            simp only [decide_eq_true_eq] at hlt
            omega
        constructor
        · constructor
          · intro h; cases h
          · intro h; exact absurd h hspec
        · intro _; rfl
      · rw [if_neg h2]
        have hall : ∀ o ∈ others,
            cfg.category_limits sp (pg sp) ≤ (col_count o sp (pg sp) : Int) := by
          intro o ho
          by_contra hlt
          exact h2 (List.any_eq_true.mpr ⟨o, ho, by
            simp only [decide_eq_true_eq]; omega⟩)
        constructor
        · constructor
          · intro _; exact Or.inr (Or.inr hall)
          · intro _; rfl
        · intro hspec; exact absurd (Or.inr (Or.inr hall)) hspec
    · rw [if_neg h1]
      push_neg at h1
      constructor
      · constructor
        · intro _; exact Or.inr (Or.inl h1)
        · intro _; rfl
      · intro hspec; exact absurd (Or.inr (Or.inl h1)) hspec
  · rw [if_neg hg]
    have hgO : pg sp = Grade.O := by
      cases hcase : pg sp with
      | A => exact absurd (Or.inl hcase) hg
      | B => exact absurd (Or.inr (Or.inl hcase)) hg
      | C => exact absurd (Or.inr (Or.inr hcase)) hg
      | O => rfl
    constructor
    · constructor
      · intro _; exact Or.inl hgO
      · intro _; rfl
    · intro hspec; exact absurd (Or.inl hgO) hspec

theorem check_sports_cons_some (row : TeamStats) (others : List TeamStats)
    (cfg : Config) (pg : Sport → Grade) (sp : Sport) (rest : List Sport)
    (m : String) (h : fair_play_violation row others cfg pg sp = some m) :
    check_sports row others cfg pg (sp :: rest) = (false, m) := by
  unfold check_sports
  rw [h]

theorem check_sports_cons_none (row : TeamStats) (others : List TeamStats)
    (cfg : Config) (pg : Sport → Grade) (sp : Sport) (rest : List Sport)
    (h : fair_play_violation row others cfg pg sp = none) :
    check_sports row others cfg pg (sp :: rest)
      = check_sports row others cfg pg rest := by
  have hstep : check_sports row others cfg pg (sp :: rest)
      = match fair_play_violation row others cfg pg sp with
        | some m => (false, m)
        | none => check_sports row others cfg pg rest := rfl
  rw [hstep, h]

theorem check_sports_fst_true_iff (row : TeamStats) (others : List TeamStats)
    (cfg : Config) (pg : Sport → Grade) (l : List Sport) :
    (check_sports row others cfg pg l).fst = true
      ↔ ∀ sp ∈ l, fair_play_violation row others cfg pg sp = none := by
  induction l with
  | nil => simp [check_sports]
  | cons sp rest ih =>
    cases h : fair_play_violation row others cfg pg sp with
    | some m =>
      rw [check_sports_cons_some row others cfg pg sp rest m h]
      simp only [List.mem_cons]
      constructor
      · intro hfalse; cases hfalse
      · intro hall
        have := hall sp (Or.inl rfl)
        rw [h] at this
        cases this
    | none =>
      rw [check_sports_cons_none row others cfg pg sp rest h]
      rw [ih]
      constructor
      · intro hall sp' hsp'
        rcases List.mem_cons.mp hsp' with rfl | hsp'
        · exact h
        · exact hall sp' hsp'
      · intro hall sp' hsp'
        exact hall sp' (List.mem_cons.mpr (Or.inr hsp'))

/- ===================== Claim C3 ===================== -/

/-- Claim C3: for a fair-play check of a team row and a candidate player,
each sport where the player has grade A, B or C is allowed exactly when the
team is below the configured limit or every other team has reached it; a
failing sport rejects with the message naming the sport, grade and limit;
sports with grade "0" are never checked; the sports are evaluated in order
Cricket, Badminton, TT and the first failure short-circuits the check. -/
theorem C3_fair_play (t : String) (pg : Sport → Grade) (stats : List TeamStats)
    (cfg : Config) (row : TeamStats)
    (hrow : stats.find? (fun r => r.name = t) = some row) :
    ((check_fair_play t pg stats cfg).fst = true
        ↔ ∀ sp ∈ all_sports,
            sport_allowed_spec row (stats.filter (fun r => r.name ≠ t)) cfg pg sp) ∧
    (∀ sp, pg sp = Grade.O →
      fair_play_violation row (stats.filter (fun r => r.name ≠ t)) cfg pg sp
        = none) ∧
    (¬ sport_allowed_spec row (stats.filter (fun r => r.name ≠ t)) cfg pg
        Sport.Cricket →
      check_fair_play t pg stats cfg
        = (false, quota_message Sport.Cricket (pg Sport.Cricket)
            (cfg.category_limits Sport.Cricket (pg Sport.Cricket)))) ∧
    (sport_allowed_spec row (stats.filter (fun r => r.name ≠ t)) cfg pg
        Sport.Cricket →
      ¬ sport_allowed_spec row (stats.filter (fun r => r.name ≠ t)) cfg pg
          Sport.Badminton →
      check_fair_play t pg stats cfg
        = (false, quota_message Sport.Badminton (pg Sport.Badminton)
            (cfg.category_limits Sport.Badminton (pg Sport.Badminton)))) ∧
    (sport_allowed_spec row (stats.filter (fun r => r.name ≠ t)) cfg pg
        Sport.Cricket →
      sport_allowed_spec row (stats.filter (fun r => r.name ≠ t)) cfg pg
        Sport.Badminton →
      ¬ sport_allowed_spec row (stats.filter (fun r => r.name ≠ t)) cfg pg
          Sport.TT →
      check_fair_play t pg stats cfg
        = (false, quota_message Sport.TT (pg Sport.TT)
            (cfg.category_limits Sport.TT (pg Sport.TT)))) := by
  have hcf : check_fair_play t pg stats cfg
      = check_sports row (stats.filter (fun r => r.name ≠ t)) cfg pg all_sports := by
    unfold check_fair_play
    split
    next h => rw [hrow] at h; cases h
    next row' h =>
      rw [hrow] at h
      injection h with h
      rw [h]
  refine ⟨?_, ?_, ?_, ?_, ?_⟩
  · rw [hcf, check_sports_fst_true_iff]
    constructor
    · intro h sp hsp
      exact (fair_play_violation_spec row _ cfg pg sp).1.mp (h sp hsp)
    · intro h sp hsp
      exact (fair_play_violation_spec row _ cfg pg sp).1.mpr (h sp hsp)
  · intro sp hO
    exact (fair_play_violation_spec row _ cfg pg sp).1.mpr (Or.inl hO)
  · intro hC
    rw [hcf]
    unfold all_sports
    exact check_sports_cons_some row _ cfg pg Sport.Cricket _ _
      ((fair_play_violation_spec row _ cfg pg Sport.Cricket).2 hC)
  · intro hC hB
    rw [hcf]
    unfold all_sports
    rw [check_sports_cons_none row _ cfg pg Sport.Cricket _
      ((fair_play_violation_spec row _ cfg pg Sport.Cricket).1.mpr hC)]
    exact check_sports_cons_some row _ cfg pg Sport.Badminton _ _
      ((fair_play_violation_spec row _ cfg pg Sport.Badminton).2 hB)
  · intro hC hB hT
    rw [hcf]
    unfold all_sports
    rw [check_sports_cons_none row _ cfg pg Sport.Cricket _
      ((fair_play_violation_spec row _ cfg pg Sport.Cricket).1.mpr hC)]
    rw [check_sports_cons_none row _ cfg pg Sport.Badminton _
      ((fair_play_violation_spec row _ cfg pg Sport.Badminton).1.mpr hB)]
    exact check_sports_cons_some row _ cfg pg Sport.TT _ _
      ((fair_play_violation_spec row _ cfg pg Sport.TT).2 hT)

/-- A player with Cricket grade A only, for the C3 witness. -/
def c3p : Player :=
  { id := 2, name := "P2", team := none, price := 0,
    cricket := Grade.A, badminton := Grade.O, tt := Grade.O, captainFor := none }

/-- A ledger row that has already reached the Cricket A limit of 4. -/
def c3row : TeamStats :=
  { name := "T1", count := 4, spent := 100, available := 2400, disposable := 2090,
    cricket := 4, badminton := 0, tt := 0,
    cric_a := 4, cric_b := 0, cric_c := 0,
    bad_a := 0, bad_b := 0, bad_c := 0,
    tt_a := 0, tt_b := 0, tt_c := 0 }

/-- A second ledger row still below the Cricket A limit. -/
def c3other : TeamStats :=
  { name := "T2", count := 1, spent := 20, available := 2480, disposable := 2140,
    cricket := 1, badminton := 0, tt := 0,
    cric_a := 1, cric_b := 0, cric_c := 0,
    bad_a := 0, bad_b := 0, bad_c := 0,
    tt_a := 0, tt_b := 0, tt_c := 0 }

/-- The stats table of the C3 witness. -/
def c3stats : List TeamStats := [c3row, c3other]

/-- Witness for C3: the theorem applied at a concrete stats table where team
T1 has reached the Cricket A quota while T2 lags. -/
theorem C3_fair_play_witness :
    (c3stats.find? (fun r => r.name = "T1") = some c3row) ∧
    (((check_fair_play "T1" (player_sport_grades c3p) c3stats DEFAULT_CONFIG).fst
          = true
        ↔ ∀ sp ∈ all_sports,
            sport_allowed_spec c3row (c3stats.filter (fun r => r.name ≠ "T1"))
              DEFAULT_CONFIG (player_sport_grades c3p) sp) ∧
    (∀ sp, player_sport_grades c3p sp = Grade.O →
      fair_play_violation c3row (c3stats.filter (fun r => r.name ≠ "T1"))
        DEFAULT_CONFIG (player_sport_grades c3p) sp = none) ∧
    (¬ sport_allowed_spec c3row (c3stats.filter (fun r => r.name ≠ "T1"))
        DEFAULT_CONFIG (player_sport_grades c3p) Sport.Cricket →
      check_fair_play "T1" (player_sport_grades c3p) c3stats DEFAULT_CONFIG
        = (false, quota_message Sport.Cricket (player_sport_grades c3p Sport.Cricket)
            (DEFAULT_CONFIG.category_limits Sport.Cricket
              (player_sport_grades c3p Sport.Cricket)))) ∧
    (sport_allowed_spec c3row (c3stats.filter (fun r => r.name ≠ "T1"))
        DEFAULT_CONFIG (player_sport_grades c3p) Sport.Cricket →
      ¬ sport_allowed_spec c3row (c3stats.filter (fun r => r.name ≠ "T1"))
          DEFAULT_CONFIG (player_sport_grades c3p) Sport.Badminton →
      check_fair_play "T1" (player_sport_grades c3p) c3stats DEFAULT_CONFIG
        = (false, quota_message Sport.Badminton
            (player_sport_grades c3p Sport.Badminton)
            (DEFAULT_CONFIG.category_limits Sport.Badminton
              (player_sport_grades c3p Sport.Badminton)))) ∧
    (sport_allowed_spec c3row (c3stats.filter (fun r => r.name ≠ "T1"))
        DEFAULT_CONFIG (player_sport_grades c3p) Sport.Cricket →
      sport_allowed_spec c3row (c3stats.filter (fun r => r.name ≠ "T1"))
        DEFAULT_CONFIG (player_sport_grades c3p) Sport.Badminton →
      ¬ sport_allowed_spec c3row (c3stats.filter (fun r => r.name ≠ "T1"))
          DEFAULT_CONFIG (player_sport_grades c3p) Sport.TT →
      check_fair_play "T1" (player_sport_grades c3p) c3stats DEFAULT_CONFIG
        = (false, quota_message Sport.TT (player_sport_grades c3p Sport.TT)
            (DEFAULT_CONFIG.category_limits Sport.TT
              (player_sport_grades c3p Sport.TT))))) :=
  ⟨by decide,
   C3_fair_play "T1" (player_sport_grades c3p) c3stats DEFAULT_CONFIG c3row
     (by decide)⟩

/- ===================== Claim C4 ===================== -/

theorem set_sold_find? (ps : List Player) (p_id : Nat) (t : String) (bid : Int)
    (p : Player)
    (hp : ps.find? (fun q => q.id = p_id) = some p) :
    (set_sold ps p_id t bid).find? (fun q => q.id = p_id)
      = some { p with team := some t, price := bid } := by
  obtain ⟨l1, l2, rfl, h1, hptest⟩ := find?_eq_some_decomp _ _ _ hp
  rw [set_sold, update_first_decomp _ _ l1 l2 p h1 hptest]
  exact find?_of_decomp _ l1 l2 _ h1 hptest

/-- A player already Sold to Aditya Avengers, for the C4 counterexample. -/
def c4p : Player :=
  { id := 3, name := "P3", team := some "Aditya Avengers", price := 100,
    cricket := Grade.O, badminton := Grade.O, tt := Grade.O, captainFor := none }

/-- A session state in which player 3 is already Sold. -/
def c4state : AppState :=
  { players := [c4p], config := DEFAULT_CONFIG, activity_log := [],
    current_player_id := some 3 }

/-- Counterexample to C4 as stated: player 3 is already Sold (Team non-null),
yet the bid-commit is not rejected at all — it succeeds and overwrites the
player's Team and Price.  There is no StaleSelection rejection in the code. -/
theorem C4_counterexample :
    c4p.team ≠ none ∧
    (commit_sale c4state 3 "Alfen Royals" 50).fst = none ∧
    (commit_sale c4state 3 "Alfen Royals" 50).snd.players
      = [{ c4p with team := some "Alfen Royals", price := 50 }] := by
  decide

/-- Claim C4 (amended): the bid-commit path performs no check that the
targeted player is still Unsold, so there is no StaleSelection rejection: a
commit attempt on an already-Sold player for which the squad, funds and quota
checks pass is committed, overwriting the player's Team and Price. -/
theorem C4_no_stale_check (s : AppState) (p_id : Nat) (t : String) (bid : Int)
    (p : Player)
    (hp : s.players.find? (fun q => q.id = p_id) = some p)
    (hsold : p.team ≠ none)
    (ht : t ∈ TEAM_NAMES)
    (hcap : ((mk_team_row s.players s.config t).count : Int)
      < s.config.max_squad_size)
    (hbid : bid ≤ (mk_team_row s.players s.config t).disposable
      + s.config.base_price)
    (hfair : (check_fair_play t (player_sport_grades p)
        (calculate_team_stats s.players s.config) s.config).fst = true) :
    (commit_sale s p_id t bid).fst = none ∧
    (commit_sale s p_id t bid).snd.players.find? (fun q => q.id = p_id)
      = some { p with team := some t, price := bid } := by
  rw [commit_sale_accepts s p_id t bid p hp ht hcap hbid hfair]
  exact ⟨rfl, set_sold_find? s.players p_id t bid p hp⟩

/-- Witness for the amended C4 at the concrete state `c4state`. -/
theorem C4_no_stale_check_witness :
    (c4state.players.find? (fun q => q.id = 3) = some c4p ∧
     c4p.team ≠ none ∧
     "Alfen Royals" ∈ TEAM_NAMES ∧
     ((mk_team_row c4state.players c4state.config "Alfen Royals").count : Int)
       < c4state.config.max_squad_size ∧
     (50 : Int) ≤ (mk_team_row c4state.players c4state.config
         "Alfen Royals").disposable + c4state.config.base_price ∧
     (check_fair_play "Alfen Royals" (player_sport_grades c4p)
        (calculate_team_stats c4state.players c4state.config)
        c4state.config).fst = true) ∧
    ((commit_sale c4state 3 "Alfen Royals" 50).fst = none ∧
     (commit_sale c4state 3 "Alfen Royals" 50).snd.players.find?
        (fun q => q.id = 3)
       = some { c4p with team := some "Alfen Royals", price := 50 }) :=
  ⟨⟨by decide, by decide, by decide, by decide, by decide, by decide⟩,
   C4_no_stale_check c4state 3 "Alfen Royals" 50 c4p
     (by decide) (by decide) (by decide) (by decide) (by decide) (by decide)⟩

/- ===================== Claim C5 ===================== -/

/-- Claim C5: after any committed bid sale through the validated commit path,
the winning team's recomputed disposable is nonnegative, given the player was
Unsold, the team's disposable was nonnegative before the sale and its count
was below max_squad_size. -/
theorem C5_disposable_nonneg (s : AppState) (p_id : Nat) (t : String) (bid : Int)
    (p : Player)
    (ht : t ∈ TEAM_NAMES)
    (hp : s.players.find? (fun q => q.id = p_id) = some p)
    (hunsold : p.team = none)
    (hcap : ((mk_team_row s.players s.config t).count : Int)
      < s.config.max_squad_size)
    (hdisp : 0 ≤ (mk_team_row s.players s.config t).disposable)
    (hcommit : (commit_sale s p_id t bid).fst = none) :
    0 ≤ (mk_team_row (commit_sale s p_id t bid).snd.players s.config t).disposable := by
  have hbid : bid ≤ (mk_team_row s.players s.config t).disposable
      + s.config.base_price := by
    by_contra hgt
    push_neg at hgt
    rw [commit_sale_insufficient s p_id t bid p hp ht hcap hgt] at hcommit
    simp at hcommit
  rcases commit_sale_cases s p_id t bid with ⟨r, hcase⟩ | ⟨p', hfind, hcase⟩
  · rw [hcase] at hcommit; simp at hcommit
  · rw [hcase]
    obtain ⟨l1, l2, hps, h1, hptest⟩ := find?_eq_some_decomp _ _ _ hp
    have hset : set_sold s.players p_id t bid
        = l1 ++ ({ p with team := some t, price := bid } : Player) :: l2 := by
      rw [hps]
      exact update_first_decomp _ _ l1 l2 p h1 hptest
    have hstats := sold_count_spent l1 l2 p
      ({ p with team := some t, price := bid }) t
      (by rw [hunsold]; simp) rfl
    simp only [hset]
    rw [hps] at hcap hbid
    rw [mk_team_row_disposable, mk_team_row_count, mk_team_row_spent] at hbid ⊢
    rw [mk_team_row_count] at hcap
    rw [hstats.1, hstats.2]
    push_cast
    have hmax1 : max 0 (s.config.max_squad_size
        - ((team_players (l1 ++ p :: l2) t).length : Int))
        = s.config.max_squad_size
          - ((team_players (l1 ++ p :: l2) t).length : Int) :=
      max_eq_right (by omega)
    have hmax2 : max 0 (s.config.max_squad_size
        - (((team_players (l1 ++ p :: l2) t).length : Int) + 1))
        = s.config.max_squad_size
          - (((team_players (l1 ++ p :: l2) t).length : Int) + 1) :=
      max_eq_right (by omega)
    rw [hmax2]
    rw [hmax1] at hbid
    have hexp : (s.config.max_squad_size
        - (((team_players (l1 ++ p :: l2) t).length : Int) + 1))
          * s.config.base_price
        = (s.config.max_squad_size
            - ((team_players (l1 ++ p :: l2) t).length : Int))
              * s.config.base_price - s.config.base_price := by ring
    rw [hexp]
    linarith

/-- The unsold player of the C5 witness. -/
def c5p : Player :=
  { id := 5, name := "P5", team := none, price := 0,
    cricket := Grade.O, badminton := Grade.O, tt := Grade.O, captainFor := none }

/-- The session state of the C5 witness. -/
def c5state : AppState :=
  { players := [c5p], config := DEFAULT_CONFIG, activity_log := [],
    current_player_id := some 5 }

/-- Witness for C5: a maximal bid of 2160 (= disposable + base price) is
committed and the recomputed disposable is still nonnegative. -/
theorem C5_disposable_nonneg_witness :
    ("Alfen Royals" ∈ TEAM_NAMES ∧
     c5state.players.find? (fun q => q.id = 5) = some c5p ∧
     c5p.team = none ∧
     ((mk_team_row c5state.players c5state.config "Alfen Royals").count : Int)
       < c5state.config.max_squad_size ∧
     0 ≤ (mk_team_row c5state.players c5state.config "Alfen Royals").disposable ∧
     (commit_sale c5state 5 "Alfen Royals" 2160).fst = none) ∧
    0 ≤ (mk_team_row (commit_sale c5state 5 "Alfen Royals" 2160).snd.players
        c5state.config "Alfen Royals").disposable :=
  ⟨⟨by decide, by decide, by decide, by decide, by decide, by decide⟩,
   C5_disposable_nonneg c5state 5 "Alfen Royals" 2160 c5p
     (by decide) (by decide) (by decide) (by decide) (by decide) (by decide)⟩

/- ===================== Claim C6 ===================== -/

/-- Claim C6: every validation failure of the bid-commit returns a typed
rejection and leaves the players table, config, activity log and on-block
pointer unchanged; when all checks pass, the single mutating step sets the
targeted player's Team and Price (touching no other row), clears the on-block
pointer and prepends exactly one sale log entry (capped at 50 entries). -/
theorem C6_rejections_pure (s : AppState) (p_id : Nat) (t : String) (bid : Int) :
    (∀ r, (commit_sale s p_id t bid).fst = some r
      → (commit_sale s p_id t bid).snd = s) ∧
    ((commit_sale s p_id t bid).fst = none →
      ∃ p, s.players.find? (fun q => q.id = p_id) = some p ∧
        (commit_sale s p_id t bid).snd
          = { players := set_sold s.players p_id t bid,
              config := s.config,
              activity_log :=
                ({ kind := "sale", message := sale_message p.name t bid }
                  :: s.activity_log).take 50,
              current_player_id := none } ∧
        ∃ l1 l2, s.players = l1 ++ p :: l2 ∧ (∀ q ∈ l1, q.id ≠ p_id) ∧
          set_sold s.players p_id t bid
            = l1 ++ ({ p with team := some t, price := bid } : Player) :: l2) := by
  constructor
  · intro r hr
    rcases commit_sale_cases s p_id t bid with ⟨r', hcase⟩ | ⟨p, hfind, hcase⟩
    · rw [hcase]
    · rw [hcase] at hr
      simp at hr
  · intro hnone
    rcases commit_sale_cases s p_id t bid with ⟨r', hcase⟩ | ⟨p, hfind, hcase⟩
    · rw [hcase] at hnone
      simp at hnone
    · obtain ⟨l1, l2, hps, h1, hptest⟩ := find?_eq_some_decomp _ _ _ hfind
      refine ⟨p, hfind, ?_, l1, l2, hps, ?_, ?_⟩
      · rw [hcase]
        rfl
      · intro q hq
        have := h1 q hq
        simpa using this
      · rw [hps]
        exact update_first_decomp _ _ l1 l2 p h1 hptest

/-- A config whose max squad size is 0, to exercise the SquadFull rejection. -/
def c6cfg : Config :=
  { purse_limit := 100, max_squad_size := 0, base_price := 10,
    category_limits := DEFAULT_CONFIG.category_limits }

/-- The unsold player of the C6 witness. -/
def c6p : Player :=
  { id := 6, name := "P6", team := none, price := 0,
    cricket := Grade.O, badminton := Grade.O, tt := Grade.O, captainFor := none }

/-- A state rejecting every sale with SquadFull (max squad size 0). -/
def c6state : AppState :=
  { players := [c6p], config := c6cfg, activity_log := [],
    current_player_id := some 6 }

/-- A state accepting a sale of player 6 (default config). -/
def c6ok : AppState :=
  { players := [c6p], config := DEFAULT_CONFIG, activity_log := [],
    current_player_id := some 6 }

/-- Witness for C6: a rejected commit leaves the concrete state untouched and
an accepted commit produces exactly the mutated state. -/
theorem C6_rejections_pure_witness :
    ((commit_sale c6state 6 "Alfen Royals" 10).fst = some Rejection.squadFull ∧
     (commit_sale c6state 6 "Alfen Royals" 10).snd = c6state) ∧
    ((commit_sale c6ok 6 "Alfen Royals" 40).fst = none ∧
     ∃ p, c6ok.players.find? (fun q => q.id = 6) = some p ∧
       (commit_sale c6ok 6 "Alfen Royals" 40).snd
         = { players := set_sold c6ok.players 6 "Alfen Royals" 40,
             config := c6ok.config,
             activity_log :=
               ({ kind := "sale",
                  message := sale_message p.name "Alfen Royals" 40 }
                 :: c6ok.activity_log).take 50,
             current_player_id := none } ∧
       ∃ l1 l2, c6ok.players = l1 ++ p :: l2 ∧ (∀ q ∈ l1, q.id ≠ 6) ∧
         set_sold c6ok.players 6 "Alfen Royals" 40
           = l1 ++ ({ p with team := some "Alfen Royals", price := 40 } : Player)
               :: l2) :=
  ⟨⟨by decide,
    (C6_rejections_pure c6state 6 "Alfen Royals" 10).1 Rejection.squadFull
      (by decide)⟩,
   ⟨by decide, (C6_rejections_pure c6ok 6 "Alfen Royals" 40).2 (by decide)⟩⟩

/- ===================== Claim C7 ===================== -/

/-- The unsold player of the C7 counterexample. -/
def c7p : Player :=
  { id := 7, name := "P7", team := none, price := 0,
    cricket := Grade.O, badminton := Grade.O, tt := Grade.O, captainFor := none }

/-- The session state of the C7 counterexample (default config, base price 10). -/
def c7state : AppState :=
  { players := [c7p], config := DEFAULT_CONFIG, activity_log := [],
    current_player_id := some 7 }

/-- Counterexample to C7 as stated: a bid of 5, below the base price of 10,
is not rejected — there is no BelowBasePrice check in the commit path; the
sale is committed at the below-base price itself. -/
theorem C7_counterexample :
    (5 : Int) < c7state.config.base_price ∧
    (commit_sale c7state 7 "Alfen Royals" 5).fst = none ∧
    (commit_sale c7state 7 "Alfen Royals" 5).snd.players
      = [{ c7p with team := some "Alfen Royals", price := 5 }] := by
  decide

/-- Claim C7 (amended): the commit logic contains no below-base-price check
and no BelowBasePrice rejection: a bid below base_price that passes the
squad, funds and quota checks is committed, with Price set to the bid itself
(not clamped up).  The UI's Sold Price number input separately enforces
min_value = base_price, so such a bid cannot be entered through the widget. -/
theorem C7_no_below_base_check (s : AppState) (p_id : Nat) (t : String)
    (bid : Int) (p : Player)
    (hp : s.players.find? (fun q => q.id = p_id) = some p)
    (hbelow : bid < s.config.base_price)
    (ht : t ∈ TEAM_NAMES)
    (hcap : ((mk_team_row s.players s.config t).count : Int)
      < s.config.max_squad_size)
    (hdisp : 0 ≤ (mk_team_row s.players s.config t).disposable)
    (hfair : (check_fair_play t (player_sport_grades p)
        (calculate_team_stats s.players s.config) s.config).fst = true) :
    (commit_sale s p_id t bid).fst = none ∧
    (commit_sale s p_id t bid).snd.players.find? (fun q => q.id = p_id)
      = some { p with team := some t, price := bid } := by
  have hbid : bid ≤ (mk_team_row s.players s.config t).disposable
      + s.config.base_price := by linarith
  rw [commit_sale_accepts s p_id t bid p hp ht hcap hbid hfair]
  exact ⟨rfl, set_sold_find? s.players p_id t bid p hp⟩

/-- Witness for the amended C7 at the concrete state `c7state` with a bid
of 5 below the base price of 10. -/
theorem C7_no_below_base_check_witness :
    (c7state.players.find? (fun q => q.id = 7) = some c7p ∧
     (5 : Int) < c7state.config.base_price ∧
     "Alfen Royals" ∈ TEAM_NAMES ∧
     ((mk_team_row c7state.players c7state.config "Alfen Royals").count : Int)
       < c7state.config.max_squad_size ∧
     0 ≤ (mk_team_row c7state.players c7state.config "Alfen Royals").disposable ∧
     (check_fair_play "Alfen Royals" (player_sport_grades c7p)
        (calculate_team_stats c7state.players c7state.config)
        c7state.config).fst = true) ∧
    ((commit_sale c7state 7 "Alfen Royals" 5).fst = none ∧
     (commit_sale c7state 7 "Alfen Royals" 5).snd.players.find?
        (fun q => q.id = 7)
       = some { c7p with team := some "Alfen Royals", price := 5 }) :=
  ⟨⟨by decide, by decide, by decide, by decide, by decide, by decide⟩,
   C7_no_below_base_check c7state 7 "Alfen Royals" 5 c7p
     (by decide) (by decide) (by decide) (by decide) (by decide) (by decide)⟩

/- ===================== Claim C8 ===================== -/

/-- Claim C8: selling an Unsold player (Price 0, CaptainFor null) through the
commit path and then reverting them restores the players table exactly: the
player is Unsold again with Team null, Price 0 and CaptainFor null, a revert
log entry is prepended, and every team's recomputed ledger row — in
particular the buying team's disposable — returns exactly to its pre-sale
value. -/
theorem C8_revert_round_trip (s : AppState) (l1 l2 : List Player) (p : Player)
    (p_id : Nat) (t : String) (bid : Int)
    (hps : s.players = l1 ++ p :: l2)
    (hl1 : ∀ q ∈ l1, q.id ≠ p_id ∧ q.name ≠ p.name)
    (hpid : p.id = p_id)
    (hteam : p.team = none) (hprice : p.price = 0) (hcapt : p.captainFor = none)
    (hsale : (commit_sale s p_id t bid).fst = none) :
    (unsell_revert (commit_sale s p_id t bid).snd p.name).players = s.players ∧
    (unsell_revert (commit_sale s p_id t bid).snd p.name).players.find?
        (fun q => q.name = p.name) = some p ∧
    p.team = none ∧ p.price = 0 ∧ p.captainFor = none ∧
    (unsell_revert (commit_sale s p_id t bid).snd p.name).activity_log
      = ({ kind := "revert", message := revert_message p.name }
          :: (commit_sale s p_id t bid).snd.activity_log).take 50 ∧
    ∀ t', mk_team_row
        (unsell_revert (commit_sale s p_id t bid).snd p.name).players s.config t'
      = mk_team_row s.players s.config t' := by
  have hid_false : ∀ q ∈ l1, (fun q => decide (q.id = p_id)) q = false :=
    fun q hq => by simp [(hl1 q hq).1]
  have hname_false : ∀ q ∈ l1, (fun q => decide (q.name = p.name)) q = false :=
    fun q hq => by simp [(hl1 q hq).2]
  rcases commit_sale_cases s p_id t bid with ⟨r, hcase⟩ | ⟨pf, hfind, hcase⟩
  · rw [hcase] at hsale
    simp at hsale
  · have hset : set_sold s.players p_id t bid
        = l1 ++ ({ p with team := some t, price := bid } : Player) :: l2 := by
      rw [hps, set_sold]
      exact update_first_decomp _ _ l1 l2 p hid_false (by simp [hpid])
    have hrfp : revert_fields ({ p with team := some t, price := bid } : Player)
        = p := by
      obtain ⟨a1, a2, a3, a4, a5, a6, a7, a8⟩ := p
      simp only [revert_fields]
      simp_all
    have hplayers : (unsell_revert (commit_sale s p_id t bid).snd p.name).players
        = s.players := by
      rw [hcase]
      show update_first (fun q => q.name = p.name) revert_fields
          (set_sold s.players p_id t bid) = s.players
      rw [hset]
      rw [update_first_decomp _ _ l1 l2 _ hname_false (by simp)]
      rw [hrfp, ← hps]
    refine ⟨hplayers, ?_, hteam, hprice, hcapt, ?_, ?_⟩
    · rw [hplayers, hps]
      exact find?_of_decomp _ l1 l2 p hname_false (by simp)
    · rw [hcase]
      rfl
    · intro t'
      rw [hplayers]

/-- The unsold player of the C8 witness. -/
def c8p : Player :=
  { id := 8, name := "P8", team := none, price := 0,
    cricket := Grade.O, badminton := Grade.O, tt := Grade.O, captainFor := none }

/-- The session state of the C8 witness. -/
def c8state : AppState :=
  { players := [c8p], config := DEFAULT_CONFIG, activity_log := [],
    current_player_id := some 8 }

/-- Witness for C8: sell player 8 for 60, revert, and the table, the player
record and the ledger are restored. -/
theorem C8_revert_round_trip_witness :
    (c8state.players = [] ++ c8p :: [] ∧
     c8p.id = 8 ∧ c8p.team = none ∧ c8p.price = 0 ∧ c8p.captainFor = none ∧
     (commit_sale c8state 8 "Alfen Royals" 60).fst = none) ∧
    ((unsell_revert (commit_sale c8state 8 "Alfen Royals" 60).snd
        c8p.name).players = c8state.players ∧
     (unsell_revert (commit_sale c8state 8 "Alfen Royals" 60).snd
        c8p.name).players.find? (fun q => q.name = c8p.name) = some c8p ∧
     c8p.team = none ∧ c8p.price = 0 ∧ c8p.captainFor = none ∧
     (unsell_revert (commit_sale c8state 8 "Alfen Royals" 60).snd
        c8p.name).activity_log
       = ({ kind := "revert", message := revert_message c8p.name }
           :: (commit_sale c8state 8 "Alfen Royals" 60).snd.activity_log).take 50 ∧
     ∀ t', mk_team_row (unsell_revert
           (commit_sale c8state 8 "Alfen Royals" 60).snd c8p.name).players
         c8state.config t'
       = mk_team_row c8state.players c8state.config t') :=
  ⟨⟨rfl, rfl, rfl, rfl, rfl, by decide⟩,
   C8_revert_round_trip c8state [] [] c8p 8 "Alfen Royals" 60
     rfl (by simp) rfl rfl rfl rfl (by decide)⟩

/- ===================== Claim C9 ===================== -/

/-- Claim C9: assigning an Unsold player as captain succeeds at any price —
the path runs no funds, capacity or quota check; it sets the player's Team,
Price and CaptainFor, prepends a captain log entry, and the subsequent
ledger computation returns the resulting disposable by the usual formula,
which can be negative when the price exceeds the budget. -/
theorem C9_captain_bypass (s : AppState) (l1 l2 : List Player) (p : Player)
    (cap_team : String) (cap_sport : Sport) (cap_price : Int)
    (hps : s.players = l1 ++ p :: l2)
    (hl1 : ∀ q ∈ l1, q.name ≠ p.name)
    (hunsold : p.team = none) :
    (assign_captain s p.name cap_team cap_sport cap_price).players
      = l1 ++ ({ p with
          team := some cap_team
          price := cap_price
          captainFor := some cap_sport } : Player) :: l2 ∧
    (assign_captain s p.name cap_team cap_sport cap_price).activity_log
      = ({ kind := "captain",
           message := captain_message p.name cap_team cap_sport }
          :: s.activity_log).take 50 ∧
    (mk_team_row (assign_captain s p.name cap_team cap_sport cap_price).players
        s.config cap_team).disposable
      = s.config.purse_limit
        - ((mk_team_row s.players s.config cap_team).spent + cap_price)
        - max 0 (s.config.max_squad_size
            - (((mk_team_row s.players s.config cap_team).count : Int) + 1))
          * s.config.base_price := by
  have hname_false : ∀ q ∈ l1, (fun q => decide (q.name = p.name)) q = false :=
    fun q hq => by simp [hl1 q hq]
  have hplayers : (assign_captain s p.name cap_team cap_sport cap_price).players
      = l1 ++ ({ p with
          team := some cap_team
          price := cap_price
          captainFor := some cap_sport } : Player) :: l2 := by
    show update_first (fun q => q.name = p.name)
        (fun q => { q with
          team := some cap_team
          price := cap_price
          captainFor := some cap_sport }) s.players
      = l1 ++ ({ p with
          team := some cap_team
          price := cap_price
          captainFor := some cap_sport } : Player) :: l2
    rw [hps]
    exact update_first_decomp _ _ l1 l2 p hname_false (by simp)
  refine ⟨hplayers, rfl, ?_⟩
  rw [hplayers, hps]
  have hstats := sold_count_spent l1 l2 p
    ({ p with
      team := some cap_team
      price := cap_price
      captainFor := some cap_sport }) cap_team
    (by rw [hunsold]; simp) rfl
  rw [mk_team_row_disposable, mk_team_row_count, mk_team_row_spent,
    mk_team_row_count, mk_team_row_spent]
  rw [hstats.1, hstats.2]
  push_cast
  rfl

/-- The unsold player of the C9 witness. -/
def c9p : Player :=
  { id := 9, name := "P9", team := none, price := 0,
    cricket := Grade.A, badminton := Grade.O, tt := Grade.O, captainFor := none }

/-- The session state of the C9 witness. -/
def c9state : AppState :=
  { players := [c9p], config := DEFAULT_CONFIG, activity_log := [],
    current_player_id := none }

/-- Witness for C9: a captain price of 3000 exceeds the team's disposable of
2150, the assignment still succeeds, and the recomputed disposable is the
negative value −840. -/
theorem C9_captain_bypass_witness :
    (c9state.players = [] ++ c9p :: [] ∧
     c9p.team = none ∧
     3000 > (mk_team_row c9state.players c9state.config "Alfen Royals").disposable) ∧
    ((assign_captain c9state c9p.name "Alfen Royals" Sport.Cricket 3000).players
      = [] ++ ({ c9p with
          team := some "Alfen Royals"
          price := 3000
          captainFor := some Sport.Cricket } : Player) :: [] ∧
     (assign_captain c9state c9p.name "Alfen Royals" Sport.Cricket 3000).activity_log
      = ({ kind := "captain",
           message := captain_message c9p.name "Alfen Royals" Sport.Cricket }
          :: c9state.activity_log).take 50 ∧
     (mk_team_row (assign_captain c9state c9p.name "Alfen Royals" Sport.Cricket
          3000).players c9state.config "Alfen Royals").disposable
      = c9state.config.purse_limit
        - ((mk_team_row c9state.players c9state.config "Alfen Royals").spent + 3000)
        - max 0 (c9state.config.max_squad_size
            - (((mk_team_row c9state.players c9state.config "Alfen Royals").count
                : Int) + 1))
          * c9state.config.base_price) ∧
    (mk_team_row (assign_captain c9state c9p.name "Alfen Royals" Sport.Cricket
        3000).players c9state.config "Alfen Royals").disposable = -840 :=
  ⟨⟨rfl, rfl, by decide⟩,
   C9_captain_bypass c9state [] [] c9p "Alfen Royals" Sport.Cricket 3000
     rfl (by simp) rfl,
   by decide⟩

/- ===================== Claim C10 ===================== -/

/-- Claim C10: the Winning Team selectbox is populated only with teams whose
computed disposable is at least base_price, so a team with
0 ≤ disposable < base_price can never be chosen as the winning team of a bid
sale — even though the commit path's max-bid comparison
(reject when max_bid < bid) would still permit such a team a bid of exactly
base_price. -/
theorem C10_valid_teams (ps : List Player) (cfg : Config) (t : String)
    (hlo : 0 ≤ (mk_team_row ps cfg t).disposable)
    (hhi : (mk_team_row ps cfg t).disposable < cfg.base_price) :
    (∀ t', t' ∈ valid_team_options ps cfg
      → cfg.base_price ≤ (mk_team_row ps cfg t').disposable) ∧
    t ∉ valid_team_options ps cfg ∧
    ¬ ((mk_team_row ps cfg t).disposable + cfg.base_price < cfg.base_price) := by
  have hmem : ∀ t', t' ∈ valid_team_options ps cfg
      → cfg.base_price ≤ (mk_team_row ps cfg t').disposable := by
    intro t' ht'
    unfold valid_team_options at ht'
    rw [List.mem_map] at ht'
    obtain ⟨row, hrowmem, hname⟩ := ht'
    rw [List.mem_filter] at hrowmem
    obtain ⟨hrowmem, hpred⟩ := hrowmem
    unfold calculate_team_stats at hrowmem
    rw [List.mem_map] at hrowmem
    obtain ⟨a, _, rfl⟩ := hrowmem
    have ha : a = t' := by
      rw [← hname]
      rfl
    subst ha
    simpa using hpred
  refine ⟨hmem, ?_, by omega⟩
  intro hin
  have := hmem t hin
  omega

/-- A config under which an empty team's disposable is 2, strictly between 0
and the base price of 10. -/
def c10cfg : Config :=
  { purse_limit := 352, max_squad_size := 35, base_price := 10,
    category_limits := DEFAULT_CONFIG.category_limits }

/-- Witness for C10: with `c10cfg` and no players, every team's disposable is
2, so no team is offered in the selector although a base-price bid would pass
the funds comparison. -/
theorem C10_valid_teams_witness :
    (0 ≤ (mk_team_row [] c10cfg "Alfen Royals").disposable ∧
     (mk_team_row [] c10cfg "Alfen Royals").disposable < c10cfg.base_price) ∧
    ((∀ t', t' ∈ valid_team_options [] c10cfg
      → c10cfg.base_price ≤ (mk_team_row [] c10cfg t').disposable) ∧
    "Alfen Royals" ∉ valid_team_options [] c10cfg ∧
    ¬ ((mk_team_row [] c10cfg "Alfen Royals").disposable + c10cfg.base_price
        < c10cfg.base_price)) :=
  ⟨⟨by decide, by decide⟩,
   C10_valid_teams [] c10cfg "Alfen Royals" (by decide) (by decide)⟩
